import Mathlib

set_option maxRecDepth 8192

/-
  Verification development for the api-gateway repository.

  The Go sources are shallowly embedded: Go int / int64 / time.Duration
  values are modelled as Lean Int (durations in nanoseconds) and Go maps as
  association lists.  Go integer division truncates toward zero, which is
  Int.tdiv; where a divisor can be zero Go would panic, while Int.tdiv
  returns 0 (noted at the definitions).  The int multiplication and
  addition in the token-bucket refill wrap at 2^63 and are modelled by an
  explicit two's-complement wrap; the float64 arithmetic in the
  token-bucket constructor is modelled exactly, with IEEE-754
  round-to-nearest-even rounding applied after every operation, computed
  over unnormalized integer fractions.
-/

namespace ApiGateway

/-! Token bucket limiter, from src/pkg/ratelimiter/token_bucket.go. -/

/-- Unnormalized rational number num / den, with den kept positive by
every constructor below; used to model the constructor's float64
arithmetic with kernel-computable integer operations only. -/
structure Frac where
  num : Int
  den : Int
deriving DecidableEq

/-- Exact value of a Go integer as a fraction. -/
def fracOfInt (x : Int) : Frac :=
  { num := x, den := 1 }

/-- Exact sum of two fractions. -/
def fracAdd (x y : Frac) : Frac :=
  { num := x.num * y.den + y.num * x.den, den := x.den * y.den }

/-- Exact quotient of two fractions, keeping the denominator positive.
The divisors used below are never zero; a zero divisor yields 0. -/
def fracDiv (x y : Frac) : Frac :=
  if y.num = 0 then { num := 0, den := 1 }
  else if y.num < 0 then { num := -(x.num * y.den), den := x.den * (-y.num) }
  else { num := x.num * y.den, den := x.den * y.num }

/-- Floor of the base-2 logarithm of a natural number, by fuelled
structural recursion so that it computes inside the kernel; the fuel of
4096 far exceeds the bit length of every number this development evaluates
it on. -/
def nlog2 (fuel n : Nat) : Nat :=
  match fuel with
  | 0 => 0
  | f + 1 => if n ≤ 1 then 0 else nlog2 f (n / 2) + 1

/-- Whether a positive fraction is below 2^k. -/
def fracLtPow2 (x : Frac) (k : Int) : Bool :=
  if 0 ≤ k then x.num < x.den * ((2 : Int) ^ k.toNat)
  else x.num * ((2 : Int) ^ (-k).toNat) < x.den

/-- Floor of the base-2 logarithm of a positive fraction: the logarithm
difference of numerator and denominator is exact or one too high, and one
comparison corrects it. -/
def floorLog2F (x : Frac) : Int :=
  let k0 : Int := (nlog2 4096 x.num.toNat : Int) - (nlog2 4096 x.den.toNat : Int)
  if fracLtPow2 x k0 then k0 - 1 else k0

/-- Round x / y (y positive) to the nearest integer, ties to even. -/
def rdivHalfEven (x y : Int) : Int :=
  let n := Int.fdiv x y
  let r := x - n * y
  if 2 * r < y then n
  else if y < 2 * r then n + 1
  else if n % 2 = 0 then n else n + 1

/-- IEEE-754 binary64 rounding (to nearest, ties to even) of a positive
fraction: scale the value so its significand lies between 2^52 and 2^53,
round the significand half to even, and rescale. -/
def froundPos (x : Frac) : Frac :=
  let k := floorLog2F x
  let s := 52 - k
  let m :=
    if 0 ≤ s then rdivHalfEven (x.num * ((2 : Int) ^ s.toNat)) x.den
    else rdivHalfEven x.num (x.den * ((2 : Int) ^ (-s).toNat))
  if 0 ≤ k - 52 then { num := m * ((2 : Int) ^ (k - 52).toNat), den := 1 }
  else { num := m, den := (2 : Int) ^ (52 - k).toNat }

/-- IEEE-754 binary64 rounding of a fraction: zero and sign are handled
explicitly and the magnitude is rounded by froundPos.  Every value this
development applies it to lies well inside the normal double range, where
this is exact IEEE semantics (no overflow, underflow, subnormal or NaN
handling is needed). -/
def froundDouble (x : Frac) : Frac :=
  if x.num = 0 then { num := 0, den := 1 }
  else if x.num < 0 then
    let r := froundPos { num := -x.num, den := x.den }
    { num := -r.num, den := r.den }
  else froundPos x

/-- Go conversion int(f) of a float64 value: truncation toward zero. -/
def truncToInt (x : Frac) : Int :=
  Int.tdiv x.num x.den

/-- Go int64 two's-complement wraparound. -/
def goWrap (x : Int) : Int :=
  (x + 2 ^ 63) % 2 ^ 64 - 2 ^ 63

/-- State of TokenBucketLimiter (token_bucket.go lines 8-15).
All durations and timestamps are in nanoseconds. -/
structure TokenBucketLimiter where
  capacity : Int
  tokens : Int
  refillRate : Int
  refillInterval : Int
  lastRefillTime : Int
  refillPerInterval : Int
deriving DecidableEq

/-- The local variable requests after the default is applied
(token_bucket.go lines 19-21). -/
def tbRequests (requests0 : Int) : Int :=
  if requests0 ≤ 0 then 100 else requests0

/-- The local variable interval after the default is applied
(token_bucket.go lines 22-24). -/
def tbInterval (interval0 : Int) : Int :=
  if interval0 ≤ 0 then 1000000000 else interval0

/-- Go time.Duration.Seconds() for a duration d in nanoseconds:
sec := d / 1e9 and nsec := d % 1e9 in int64 arithmetic, then
float64(sec) + float64(nsec)/1e9 with each float64 operation (both int
conversions, the division and the addition) rounded; the literal 1e9 is
exactly representable. -/
def durationSecondsF (d : Int) : Frac :=
  froundDouble (fracAdd
    (froundDouble (fracOfInt (Int.tdiv d 1000000000)))
    (froundDouble (fracDiv (froundDouble (fracOfInt (Int.tmod d 1000000000)))
      (fracOfInt 1000000000))))

/-- The local refillRate before the low-rate adjustment (token_bucket.go
line 27): int(float64(requests) / interval.Seconds()), with the float64
conversion of requests, the float64 division and the final int conversion
each modelled exactly. -/
def tbRawRate (requests0 interval0 : Int) : Int :=
  truncToInt (froundDouble (fracDiv
    (froundDouble (fracOfInt (tbRequests requests0)))
    (durationSecondsF (tbInterval interval0))))

/-- NewTokenBucketLimiter (token_bucket.go lines 18-42); time.Now() is the
explicit argument now.  When the raw rate truncates to a non-positive value
the code switches to refillRate = 1, refillPerInterval = 1 and interval =
time.Second / time.Duration(requests), which is Go int64 division
(Int.tdiv); the branch is written here per field. -/
def NewTokenBucketLimiter (requests0 interval0 now : Int) : TokenBucketLimiter :=
  { capacity := tbRequests requests0,
    tokens := tbRequests requests0,
    refillRate :=
      if tbRawRate requests0 interval0 ≤ 0 then 1 else tbRawRate requests0 interval0,
    refillInterval :=
      if tbRawRate requests0 interval0 ≤ 0 then Int.tdiv 1000000000 (tbRequests requests0)
      else tbInterval interval0,
    lastRefillTime := now,
    refillPerInterval :=
      if tbRawRate requests0 interval0 ≤ 0 then 1 else tbRequests requests0 }

/-- refill (token_bucket.go lines 56-68) at wall-clock instant now: if at
least one whole interval elapsed, tokensToAdd := intervals *
refillPerInterval and tokens += tokensToAdd — both wrapping Go int
operations, hence the goWrap — then the count is capped at capacity and
lastRefillTime advances.  Go would panic if refillInterval were zero;
Int.tdiv yields 0 here.  The elapsed time now.Sub(lastRefillTime)
saturates rather than wraps in Go and is exact for in-range timestamps;
the division computing intervals cannot overflow. -/
def TokenBucketLimiter.refill (l : TokenBucketLimiter) (now : Int) : TokenBucketLimiter :=
  if l.refillInterval ≤ now - l.lastRefillTime then
    { l with
      tokens :=
        if l.capacity <
            goWrap (l.tokens + goWrap
              (Int.tdiv (now - l.lastRefillTime) l.refillInterval * l.refillPerInterval))
        then l.capacity
        else goWrap (l.tokens + goWrap
          (Int.tdiv (now - l.lastRefillTime) l.refillInterval * l.refillPerInterval)),
      lastRefillTime := now }
  else
    l

/-- Allow (token_bucket.go lines 45-53) at wall-clock instant now: returns
the admission decision and the successor state.  The decrement is guarded
by 0 < tokens and so cannot wrap for int64-range states. -/
def TokenBucketLimiter.Allow (l : TokenBucketLimiter) (now : Int) : Bool × TokenBucketLimiter :=
  if 0 < (l.refill now).tokens then
    (true, { l.refill now with tokens := (l.refill now).tokens - 1 })
  else (false, l.refill now)

/-- Run a sequence of Allow() calls at the given wall-clock instants. -/
def runAllows (l : TokenBucketLimiter) (times : List Int) : TokenBucketLimiter :=
  times.foldl (fun s t => (s.Allow t).2) l

/-- Upper-bound invariant: the token count never exceeds capacity. -/
def TBUpper (l : TokenBucketLimiter) : Prop :=
  l.tokens ≤ l.capacity

theorem TBUpper_new (requests0 interval0 now : Int) :
    TBUpper (NewTokenBucketLimiter requests0 interval0 now) :=
  le_refl _

theorem TBUpper_refill (l : TokenBucketLimiter) (now : Int) (h : TBUpper l) :
    TBUpper (l.refill now) := by
  unfold TBUpper at *
  unfold TokenBucketLimiter.refill
  split
  · dsimp only
    split
    · exact le_refl _
    · next hc => omega
  · exact h

theorem TBUpper_allow (l : TokenBucketLimiter) (now : Int) (h : TBUpper l) :
    TBUpper (l.Allow now).2 := by
  have hr := TBUpper_refill l now h
  unfold TBUpper at *
  unfold TokenBucketLimiter.Allow
  split
  · next hpos => dsimp only; omega
  · exact hr

theorem TBUpper_run (times : List Int) (l : TokenBucketLimiter) (h : TBUpper l) :
    TBUpper (runAllows l times) := by
  induction times generalizing l with
  | nil => exact h
  | cons t ts ih => exact ih _ (TBUpper_allow l t h)

/-- C4 amended: for every limiter constructed by NewTokenBucketLimiter
(arbitrary constructor arguments, defaults applied as in the code) and
every sequence of Allow() calls at arbitrary wall-clock instants, the
token count never exceeds capacity: the refill clamps its (wrapping)
result from above and the guarded decrement only lowers the count.  The
other half of the original claim — the count never goes negative — fails
in the code because the refill arithmetic wraps at 2^63 (see the overflow
counterexample). -/
theorem tokenBucket_tokens_le_capacity (requests0 interval0 now0 : Int) (times : List Int) :
    (runAllows (NewTokenBucketLimiter requests0 interval0 now0) times).tokens ≤
      (runAllows (NewTokenBucketLimiter requests0 interval0 now0) times).capacity :=
  TBUpper_run times _ (TBUpper_new requests0 interval0 now0)

/-- C4 counterexample: constructed with requests = 2^62 and interval = 1s
(the float64 rate is exactly 2^62, so the normal branch keeps
refillPerInterval = 2^62 and refillInterval = 1s), a single Allow() two
seconds after construction computes tokensToAdd = 2 * 2^62, which wraps to
-2^63, and the token count becomes 2^62 - 2^63 = -2^62, strictly below 0:
the claimed lower bound is violated by the wrapping int arithmetic in
refill. -/
theorem tokenBucket_overflow_counterexample :
    (runAllows (NewTokenBucketLimiter 4611686018427387904 1000000000 0)
        [2000000000]).tokens = -4611686018427387904 ∧
      (runAllows (NewTokenBucketLimiter 4611686018427387904 1000000000 0)
        [2000000000]).tokens < 0 := by
  refine ⟨by decide, by decide⟩

/-- C5 counterexample: with requests = 2 and interval = 60s the float64
rate 2/60 truncates to 0 and the low-rate branch runs; the code sets the
per-token refill interval to time.Second / requests = 500ms, not
interval / requests = 30s as the claim states. -/
theorem newTokenBucket_lowRate_counterexample :
    (NewTokenBucketLimiter 2 60000000000 0).refillInterval = 500000000 ∧
      (NewTokenBucketLimiter 2 60000000000 0).refillInterval ≠ Int.tdiv 60000000000 2 := by
  refine ⟨by decide, by decide⟩

/-- C5 amended: when NewTokenBucketLimiter is constructed with positive
requests and interval such that the program's float64-computed
requests-per-second rate int(float64(requests) / interval.Seconds())
truncates to a non-positive value — the code's low-rate branch condition,
i.e. the rate is below one whole token per second as the program measures
it — the limiter uses a per-token refill interval of time.Second /
requests (one second divided by requests, Go integer division) with a
refill quantum of 1 token; this equals the claimed interval / requests,
and so preserves the configured average rate, only when interval is one
second. -/
theorem newTokenBucket_lowRate_perTokenInterval (requests interval now : Int)
    (hreq : 0 < requests) (hint : 0 < interval)
    (hrate : tbRawRate requests interval ≤ 0) :
    (NewTokenBucketLimiter requests interval now).refillInterval
        = Int.tdiv 1000000000 requests ∧
      (NewTokenBucketLimiter requests interval now).refillPerInterval = 1 ∧
      (NewTokenBucketLimiter requests interval now).refillRate = 1 := by
  have hreqif : tbRequests requests = requests := by unfold tbRequests; split <;> omega
  unfold NewTokenBucketLimiter
  refine ⟨?_, ?_, ?_⟩ <;> dsimp only <;> rw [if_pos hrate] <;> simp [hreqif]

/-- Witness for the amended C5 theorem at requests = 2, interval = 60s,
with the branch condition discharged by evaluating the float64 model. -/
theorem newTokenBucket_lowRate_perTokenInterval_witness :
    (NewTokenBucketLimiter 2 60000000000 0).refillInterval = Int.tdiv 1000000000 2 ∧
      (NewTokenBucketLimiter 2 60000000000 0).refillPerInterval = 1 ∧
      (NewTokenBucketLimiter 2 60000000000 0).refillRate = 1 :=
  newTokenBucket_lowRate_perTokenInterval 2 60000000000 0 (by decide) (by decide) (by decide)

/-! Reverse proxy cache, from src/unnamed/part_002 (package proxy), and the
route handler from src/unnamed/part_005 (package handler). -/

/-- Parsed URL: the parts of net/url.URL the gateway reads and writes. -/
structure URL where
  scheme : String
  host : String
  path : String
deriving DecidableEq

/-- The request-rewrite function installed on a proxy instance: either the
Director closure built by ReverseProxy.GetProxy (part_002 lines 43-48),
which captures the parsed target, or the director closure built by
handler.ProxyHandler (part_005 lines 14-22), which captures the raw target
URL string. -/
inductive DirectorTag where
  | fromGetProxy (target : URL)
  | fromProxyHandler (targetURL : String)
deriving DecidableEq

/-- The error-handler function installed on a proxy instance: the closure
from GetProxy (part_002 lines 49-53) or the closure from ProxyHandler
(part_005 lines 29-37); both write 502 Bad Gateway. -/
inductive ErrorHandlerTag where
  | fromGetProxy
  | fromProxyHandler (targetURL : String)
deriving DecidableEq

/-- What each director does to the outbound request URL.
GetProxy's Director sets scheme, host and path from the parsed target
(part_002 lines 44-47: the request path is overwritten by the target's
path, not preserved).  ProxyHandler's director sets the scheme to "http"
and the URL host to the whole raw target URL string, leaving the request
path unchanged (part_005 lines 15-17). -/
def applyDirector : DirectorTag → URL → URL
  | DirectorTag.fromGetProxy target, _ =>
      { scheme := target.scheme, host := target.host, path := target.path }
  | DirectorTag.fromProxyHandler targetURL, reqURL =>
      { scheme := "http", host := targetURL, path := reqURL.path }

/-- One httputil.ReverseProxy instance; id models pointer identity. -/
structure ProxyInstance where
  id : Nat
  director : DirectorTag
  errorHandler : ErrorHandlerTag
deriving DecidableEq

/-- The ReverseProxy cache (part_002 lines 14-18): proxies models the Go
map keyed by the exact target URL string (keys are unique, order is
irrelevant; insertion is modelled as cons), nextId provides fresh
identities for newly constructed instances. -/
structure ReverseProxy where
  proxies : List (String × ProxyInstance)
  nextId : Nat
deriving DecidableEq

/-- NewReverseProxy (part_002 lines 21-26): empty cache. -/
def NewReverseProxy : ReverseProxy :=
  { proxies := [], nextId := 0 }

/-- First-match lookup in an association list, modelling a Go map read. -/
def lookupKey {α : Type} (l : List (String × α)) (k : String) : Option α :=
  match l with
  | [] => none
  | (k', v) :: rest => if k' = k then some v else lookupKey rest k

/-- GetProxy (part_002 lines 29-57), with net/url.Parse supplied as the
collaborator parseURL (parse failure modelled as none).  The whole body
runs under rp.mu (lines 30-31), so concurrent calls are serialized and
this sequential function is the mutex-serialized behaviour. -/
def ReverseProxy.GetProxy (parseURL : String → Option URL) (rp : ReverseProxy)
    (targetURLStr : String) : Option ProxyInstance × ReverseProxy :=
  match lookupKey rp.proxies targetURLStr with
  | some p => (some p, rp)
  | none =>
    match parseURL targetURLStr with
    | none => (none, rp)
    | some target =>
      let p : ProxyInstance :=
        { id := rp.nextId,
          director := DirectorTag.fromGetProxy target,
          errorHandler := ErrorHandlerTag.fromGetProxy }
      (some p, { proxies := (targetURLStr, p) :: rp.proxies, nextId := rp.nextId + 1 })

/-- Run a sequence of GetProxy calls, collecting the returned instances. -/
def runGetProxies (parseURL : String → Option URL) (rp : ReverseProxy) :
    List String → List (Option ProxyInstance) × ReverseProxy
  | [] => ([], rp)
  | t :: ts =>
    let step := rp.GetProxy parseURL t
    let rest := runGetProxies parseURL step.2 ts
    (step.1 :: rest.1, rest.2)

theorem lookupKey_eq_some_mem {α : Type} (l : List (String × α)) (k : String) (v : α)
    (h : lookupKey l k = some v) : (k, v) ∈ l := by
  induction l with
  | nil => simp [lookupKey] at h
  | cons hd tl ih =>
    obtain ⟨k', v'⟩ := hd
    by_cases hk : k' = k
    · subst hk
      simp [lookupKey] at h
      simp [h]
    · simp [lookupKey, hk] at h
      exact List.mem_cons_of_mem _ (ih h)

theorem lookupKey_eq_none_not_mem {α : Type} (l : List (String × α)) (k : String)
    (h : lookupKey l k = none) : k ∉ l.map Prod.fst := by
  induction l with
  | nil => simp
  | cons hd tl ih =>
    obtain ⟨k', v'⟩ := hd
    by_cases hk : k' = k
    · subst hk
      simp [lookupKey] at h
    · simp [lookupKey, hk] at h
      simp [ih h]
      exact fun hc => hk hc.symm

theorem getProxy_mem_stable (parseURL : String → Option URL) (rp : ReverseProxy)
    (t k : String) (p : ProxyInstance) (h : (k, p) ∈ rp.proxies) :
    (k, p) ∈ (rp.GetProxy parseURL t).2.proxies := by
  unfold ReverseProxy.GetProxy
  split
  · exact h
  · split
    · exact h
    · exact List.mem_cons_of_mem _ h

theorem getProxy_result_mem (parseURL : String → Option URL) (rp : ReverseProxy)
    (t : String) (p : ProxyInstance) (h : (rp.GetProxy parseURL t).1 = some p) :
    (t, p) ∈ (rp.GetProxy parseURL t).2.proxies := by
  unfold ReverseProxy.GetProxy at h ⊢
  split at h
  · next q hq =>
    simp at h
    subst h
    exact lookupKey_eq_some_mem _ _ _ hq
  · next hq =>
    split at h
    · simp at h
    · simp at h
      simp [← h]

theorem getProxy_keysNodup (parseURL : String → Option URL) (rp : ReverseProxy)
    (t : String) (h : (rp.proxies.map Prod.fst).Nodup) :
    ((rp.GetProxy parseURL t).2.proxies.map Prod.fst).Nodup := by
  unfold ReverseProxy.GetProxy
  split
  · exact h
  · next hnone =>
    split
    · exact h
    · simp only [List.map_cons, List.nodup_cons]
      exact ⟨lookupKey_eq_none_not_mem _ _ hnone, h⟩

theorem run_mem_stable (parseURL : String → Option URL) (ts : List String)
    (rp : ReverseProxy) (k : String) (p : ProxyInstance) (h : (k, p) ∈ rp.proxies) :
    (k, p) ∈ (runGetProxies parseURL rp ts).2.proxies := by
  induction ts generalizing rp with
  | nil => exact h
  | cons t ts ih => exact ih _ (getProxy_mem_stable parseURL rp t k p h)

theorem run_keysNodup (parseURL : String → Option URL) (ts : List String)
    (rp : ReverseProxy) (h : (rp.proxies.map Prod.fst).Nodup) :
    ((runGetProxies parseURL rp ts).2.proxies.map Prod.fst).Nodup := by
  induction ts generalizing rp with
  | nil => exact h
  | cons t ts ih => exact ih _ (getProxy_keysNodup parseURL rp t h)

theorem run_result_mem (parseURL : String → Option URL) (ts : List String)
    (rp : ReverseProxy) (t : String) (p : ProxyInstance)
    (h : (t, some p) ∈ ts.zip (runGetProxies parseURL rp ts).1) :
    (t, p) ∈ (runGetProxies parseURL rp ts).2.proxies := by
  induction ts generalizing rp with
  | nil => simp [runGetProxies] at h
  | cons t' ts ih =>
    simp only [runGetProxies, List.zip_cons_cons, List.mem_cons] at h
    rcases h with h | h
    · rw [Prod.mk.injEq] at h
      obtain ⟨ht, hp⟩ := h
      subst ht
      exact run_mem_stable parseURL ts _ t p (getProxy_result_mem parseURL rp t p hp.symm)
    · exact ih _ h

theorem keysNodup_mem_unique {α : Type} (l : List (String × α)) (k : String) (p q : α)
    (hnd : (l.map Prod.fst).Nodup) (hp : (k, p) ∈ l) (hq : (k, q) ∈ l) : p = q := by
  induction l with
  | nil => simp at hp
  | cons hd tl ih =>
    obtain ⟨k', v'⟩ := hd
    simp only [List.map_cons, List.nodup_cons] at hnd
    rcases List.mem_cons.mp hp with hp1 | hp1 <;> rcases List.mem_cons.mp hq with hq1 | hq1
    · rw [Prod.mk.injEq] at hp1 hq1
      exact hp1.2.trans hq1.2.symm
    · rw [Prod.mk.injEq] at hp1
      exact absurd (hp1.1 ▸ List.mem_map_of_mem Prod.fst hq1) hnd.1
    · rw [Prod.mk.injEq] at hq1
      exact absurd (hq1.1 ▸ List.mem_map_of_mem Prod.fst hp1) hnd.1
    · exact ih hnd.2 hp1 hq1

/-- C7: starting from the empty cache, for every sequence of GetProxy calls
and every target URL string, all calls that return an instance for that
exact string return the same single instance (the one the first such call
constructed), and the final cache never holds two entries for the same
target.  GetProxy runs entirely under the cache mutex, so this serialized
run is the behaviour under concurrent first-use as well. -/
theorem getProxy_dedup (parseURL : String → Option URL) (ts : List String) (t : String)
    (p q : ProxyInstance)
    (hp : (t, some p) ∈ ts.zip (runGetProxies parseURL NewReverseProxy ts).1)
    (hq : (t, some q) ∈ ts.zip (runGetProxies parseURL NewReverseProxy ts).1) :
    p = q ∧
      (((runGetProxies parseURL NewReverseProxy ts).2.proxies.map Prod.fst).Nodup) := by
  have hnd : ((runGetProxies parseURL NewReverseProxy ts).2.proxies.map Prod.fst).Nodup :=
    run_keysNodup parseURL ts NewReverseProxy (by simp [NewReverseProxy])
  have hpm := run_result_mem parseURL ts NewReverseProxy t p hp
  have hqm := run_result_mem parseURL ts NewReverseProxy t q hq
  exact ⟨keysNodup_mem_unique _ t p q hnd hpm hqm, hnd⟩

/-- Trivial URL parser stub used for the deduplication witness. -/
def parseURLStub : String → Option URL :=
  fun _ => some { scheme := "http", host := "h", path := "" }

/-- The instance the first GetProxy call constructs under parseURLStub. -/
def stubInstance : ProxyInstance :=
  { id := 0,
    director := DirectorTag.fromGetProxy { scheme := "http", host := "h", path := "" },
    errorHandler := ErrorHandlerTag.fromGetProxy }

/-- Witness for C7: two GetProxy calls with the same target both return the
instance constructed by the first. -/
theorem getProxy_dedup_witness :
    stubInstance = stubInstance ∧
      (((runGetProxies parseURLStub NewReverseProxy
          ["http://a", "http://a"]).2.proxies.map Prod.fst).Nodup) :=
  getProxy_dedup parseURLStub ["http://a", "http://a"] "http://a" stubInstance stubInstance
    (by decide) (by decide)

/-- One invocation of the handler returned by ProxyHandler (part_005 lines
24-41) on a request whose URL is reqURL: the handler first overwrites the
shared proxy instance's Director (line 28) and ErrorHandler (lines 29-37),
then forwards via proxy.ServeHTTP, so the outbound request URL is produced
by the newly installed director.  The timeout only bounds the outbound call
and does not affect these fields. -/
def invokeProxyHandler (targetURL : String) (p : ProxyInstance) (reqURL : URL) :
    ProxyInstance × URL :=
  let p1 := { p with director := DirectorTag.fromProxyHandler targetURL,
                     errorHandler := ErrorHandlerTag.fromProxyHandler targetURL }
  (p1, applyDirector p1.director reqURL)

/-- C10: every invocation of a handler returned by ProxyHandler overwrites
the Director and ErrorHandler of the shared cached proxy instance before
forwarding: afterwards both fields are the ProxyHandler closures for that
handler's target and never the ones GetProxy installed at cache-creation
time, and when two routes share a cached instance, each route's request
replaces the fields installed by the other route's request. -/
theorem proxyHandler_overwrites_shared_proxy (targetURL t1 t2 : String)
    (p : ProxyInstance) (reqURL r1 r2 : URL) :
    (invokeProxyHandler targetURL p reqURL).1.director
        = DirectorTag.fromProxyHandler targetURL ∧
      (invokeProxyHandler targetURL p reqURL).1.errorHandler
        = ErrorHandlerTag.fromProxyHandler targetURL ∧
      (∀ u : URL,
        (invokeProxyHandler targetURL p reqURL).1.director ≠ DirectorTag.fromGetProxy u) ∧
      (invokeProxyHandler t2 (invokeProxyHandler t1 p r1).1 r2).1.director
        = DirectorTag.fromProxyHandler t2 ∧
      (invokeProxyHandler t2 (invokeProxyHandler t1 p r1).1 r2).1.errorHandler
        = ErrorHandlerTag.fromProxyHandler t2 := by
  refine ⟨rfl, rfl, ?_, rfl, rfl⟩
  intro u hc
  simp [invokeProxyHandler] at hc

/-! Route loading and configuration hot reload, from src/cmd/gateway/main.go,
with types from internal/config and the consul package (src/unnamed/part_004). -/

/-- ServiceInstance (part_004): the fields the gateway reads. -/
structure ServiceInstance where
  host : String
  port : Int
deriving DecidableEq

/-- RouteConfig (internal/config): path, optional static target URL,
optional discovery service name, timeout string. -/
structure RouteConfig where
  path : String
  targetURL : String
  serviceName : String
  timeout : String
deriving DecidableEq

/-- The part of config.Config that loadRoutes and the reload coordinator
act on: the route list.  The remaining scalar fields ride along unchanged
through a swap and are omitted. -/
structure Config where
  routes : List RouteConfig
deriving DecidableEq

/-- The closure handler.ProxyHandler(getProxy, targetURL, timeout, logger)
registered by r.HandleFunc (main.go line 185): it captures the shared
proxy instance (modelled by its id), the resolved target URL string and
the parsed timeout in nanoseconds. -/
structure RegisteredHandler where
  proxyId : Nat
  targetURL : String
  timeout : Int
deriving DecidableEq

/-- The mux route table: registered path patterns with their handlers. -/
abbrev RouteTable := List (String × RegisteredHandler)

/-- External collaborators of loadRoutes: the optional discovery client
(consul.ServiceDiscovery, nil modelled as none; GetServiceInstances may
fail), time.ParseDuration and net/url.Parse. -/
structure GatewayDeps where
  serviceDiscovery : Option (String → Except String (List ServiceInstance))
  parseDuration : String → Option Int
  parseURL : String → Option URL

/-- Router table plus shared reverse-proxy cache. -/
structure GatewayState where
  rp : ReverseProxy
  table : RouteTable
deriving DecidableEq

/-- Target resolution for one route (main.go lines 150-173): with a
discovery client and a nonempty service name, query instances — an error
or an empty list skips the route, otherwise the first instance is used and
the target is "http://host:port"; otherwise the static TargetURL is used,
and an empty target skips the route.  none means the route is skipped
(only logged). -/
def resolveTargetURL (deps : GatewayDeps) (route : RouteConfig) : Option String :=
  match deps.serviceDiscovery with
  | some getInstances =>
    if route.serviceName = "" then
      if route.targetURL = "" then none else some route.targetURL
    else
      match getInstances route.serviceName with
      | Except.error _ => none
      | Except.ok [] => none
      | Except.ok (inst :: _) =>
        some ("http://" ++ inst.host ++ ":" ++ toString inst.port)
  | none =>
    if route.targetURL = "" then none else some route.targetURL

/-- One iteration of the loadRoutes loop (main.go lines 149-187): resolve
the target (skip on failure), parse the timeout with a 10s default (lines
175-179), obtain the cached or fresh proxy via GetProxy (skip the route on
error, lines 180-184), and register the ProxyHandler closure (line 185). -/
def routeStep (deps : GatewayDeps) (st : GatewayState) (route : RouteConfig) : GatewayState :=
  match resolveTargetURL deps route with
  | none => st
  | some targetURL =>
    let timeout :=
      match deps.parseDuration route.timeout with
      | some d => d
      | none => 10000000000
    match st.rp.GetProxy deps.parseURL targetURL with
    | (none, rp1) => { st with rp := rp1 }
    | (some p, rp1) =>
      { rp := rp1,
        table := st.table ++
          [(route.path, { proxyId := p.id, targetURL := targetURL, timeout := timeout })] }

/-- r.ClearRoutes() (router.go lines 37-39, called at main.go line 147):
the live router's table is replaced by an empty one. -/
def clearRoutes (st : GatewayState) : GatewayState :=
  { st with table := [] }

/-- loadRoutes (main.go lines 142-189): clear the live table, then register
the routes one at a time. -/
def loadRoutes (deps : GatewayDeps) (st : GatewayState) (routes : List RouteConfig) :
    GatewayState :=
  List.foldl (routeStep deps) (clearRoutes st) routes

/-- The sequence of route-table values observable on the live router over
one loadRoutes call: the pre-rebuild table, the cleared table, and the
table after each loop iteration.  Each mutation (ClearRoutes and every
HandleFunc) happens on the router serving traffic, so each entry is a state
a concurrent reader can observe. -/
def loadRoutesTables (deps : GatewayDeps) (st : GatewayState) (routes : List RouteConfig) :
    List RouteTable :=
  st.table :: (List.scanl (routeStep deps) (clearRoutes st) routes).map GatewayState.table

/-- Global state touched by the reload coordinator: currentCfg (main.go
lines 31-34) plus the router and proxy cache. -/
structure AppState where
  currentCfg : Config
  gw : GatewayState
deriving DecidableEq

/-- One iteration of the config-watch event handler (main.go lines
207-216), given the outcome of config.LoadConfig on the changed file: on
success the global configuration is swapped (updateConfig, lines 236-240)
and the routes reloaded; on failure the error is only logged and nothing
else happens. -/
def reloadOnEvent (deps : GatewayDeps) (st : AppState) (loadResult : Except String Config) :
    AppState :=
  match loadResult with
  | Except.ok newCfg =>
    { currentCfg := newCfg, gw := loadRoutes deps st.gw newCfg.routes }
  | Except.error _ => st

/-- C3: a reload attempt whose configuration parse fails is aborted: the
event handler leaves the active configuration, the active route table and
the proxy cache exactly equal to their state before the attempt. -/
theorem reload_parse_failure_keeps_state (deps : GatewayDeps) (st : AppState) (e : String) :
    reloadOnEvent deps st (Except.error e) = st :=
  rfl

theorem routeStep_table_extends (deps : GatewayDeps) (st : GatewayState) (r : RouteConfig) :
    ∃ u, st.table ++ u = (routeStep deps st r).table := by
  unfold routeStep
  split
  · exact ⟨[], by simp⟩
  · dsimp only
    split
    · exact ⟨[], by simp⟩
    · next p rp1 heq =>
      exact ⟨_, rfl⟩

theorem foldl_table_extends (deps : GatewayDeps) (routes : List RouteConfig)
    (st : GatewayState) :
    ∃ u, st.table ++ u = (List.foldl (routeStep deps) st routes).table := by
  induction routes generalizing st with
  | nil => exact ⟨[], by simp [List.foldl]⟩
  | cons r rs ih =>
    obtain ⟨u1, h1⟩ := routeStep_table_extends deps st r
    obtain ⟨u2, h2⟩ := ih (routeStep deps st r)
    refine ⟨u1 ++ u2, ?_⟩
    show st.table ++ (u1 ++ u2) = (List.foldl (routeStep deps) (routeStep deps st r) rs).table
    rw [← List.append_assoc, h1, h2]

theorem scanl_mem_table_extends (deps : GatewayDeps) (routes : List RouteConfig)
    (st0 : GatewayState) (s : RouteTable)
    (hs : s ∈ (List.scanl (routeStep deps) st0 routes).map GatewayState.table) :
    ∃ u, s ++ u = (List.foldl (routeStep deps) st0 routes).table := by
  induction routes generalizing st0 with
  | nil =>
    simp [List.scanl] at hs
    exact ⟨[], by simp [hs, List.foldl]⟩
  | cons r rs ih =>
    rw [List.scanl] at hs
    simp only [List.map_cons, List.mem_cons] at hs
    rcases hs with hs | hs
    · subst hs
      exact foldl_table_extends deps (r :: rs) st0
    · exact ih (routeStep deps st0 r) hs

theorem foldl_mem_scanl {α β : Type} (f : α → β → α) (b : α) (l : List β) :
    List.foldl f b l ∈ List.scanl f b l := by
  induction l generalizing b with
  | nil => simp [List.scanl, List.foldl]
  | cons x xs ih =>
    rw [List.scanl]
    exact List.mem_cons_of_mem _ (ih (f b x))

/-- C2 counterexample: with an old table holding one route and a new
configuration holding two routes, the live route table passes through the
empty table during the rebuild (observable state number 1, right after
ClearRoutes), and that state is neither the complete old table nor the
complete new table. -/
theorem routeTable_rebuild_counterexample :
    (ApiGateway.loadRoutesTables
        { serviceDiscovery := none, parseDuration := fun _ => none,
          parseURL := fun _ => some { scheme := "http", host := "h", path := "" } }
        { rp := NewReverseProxy,
          table := [("/old", { proxyId := 7, targetURL := "http://old",
                               timeout := 10000000000 })] }
        [{ path := "/a", targetURL := "http://a", serviceName := "", timeout := "" },
         { path := "/b", targetURL := "http://b", serviceName := "", timeout := "" }]).get? 1
      = some [] ∧
      ([] : RouteTable)
        ≠ [("/old", { proxyId := 7, targetURL := "http://old", timeout := 10000000000 })] ∧
      ([] : RouteTable)
        ≠ (ApiGateway.loadRoutes
            { serviceDiscovery := none, parseDuration := fun _ => none,
              parseURL := fun _ => some { scheme := "http", host := "h", path := "" } }
            { rp := NewReverseProxy,
              table := [("/old", { proxyId := 7, targetURL := "http://old",
                                   timeout := 10000000000 })] }
            [{ path := "/a", targetURL := "http://a", serviceName := "", timeout := "" },
             { path := "/b", targetURL := "http://b", serviceName := "", timeout := "" }]).table := by
  refine ⟨rfl, by decide, by decide⟩

/-- C2 amended: the configuration-triggered rebuild is not atomic: the live
route table is cleared and then repopulated in place one route at a time,
so during the rebuild a reader may observe the empty table or a proper
prefix of the new table.  What does hold is: every observable state during
the rebuild (after the clear) is a prefix of the final rebuilt table, the
state right after the clear is the empty table, and the final observable
state is the complete new table. -/
theorem routeTable_rebuild_states (deps : GatewayDeps) (st : GatewayState)
    (routes : List RouteConfig) (s : RouteTable)
    (hs : s ∈ (List.scanl (routeStep deps) (clearRoutes st) routes).map GatewayState.table) :
    (∃ u, s ++ u = (loadRoutes deps st routes).table) ∧
      (loadRoutesTables deps st routes).get? 1 = some [] ∧
      (loadRoutes deps st routes).table
        ∈ (loadRoutesTables deps st routes).map id := by
  refine ⟨scanl_mem_table_extends deps routes (clearRoutes st) s hs, ?_, ?_⟩
  · unfold loadRoutesTables
    cases routes <;> rfl
  · unfold loadRoutesTables loadRoutes
    rw [List.map_id]
    exact List.mem_cons_of_mem _
      (List.mem_map_of_mem GatewayState.table (foldl_mem_scanl _ _ _))

/-- Concrete inputs for the rebuild-states witness. -/
def c2Deps : GatewayDeps :=
  { serviceDiscovery := none, parseDuration := fun _ => none,
    parseURL := fun _ => some { scheme := "http", host := "h", path := "" } }

/-- Old gateway state for the rebuild-states witness. -/
def c2OldState : GatewayState :=
  { rp := NewReverseProxy,
    table := [("/old", { proxyId := 7, targetURL := "http://old", timeout := 10000000000 })] }

/-- New route list for the rebuild-states witness. -/
def c2Routes : List RouteConfig :=
  [{ path := "/a", targetURL := "http://a", serviceName := "", timeout := "" },
   { path := "/b", targetURL := "http://b", serviceName := "", timeout := "" }]

/-- The mid-rebuild table (only /a registered) for the witness. -/
def c2MidTable : RouteTable :=
  [("/a", { proxyId := 0, targetURL := "http://a", timeout := 10000000000 })]

/-- Witness for the amended C2 theorem: the mid-rebuild table with only /a
registered is an observable state and a prefix of the final table. -/
theorem routeTable_rebuild_states_witness :
    (∃ u, c2MidTable ++ u = (loadRoutes c2Deps c2OldState c2Routes).table) ∧
      (loadRoutesTables c2Deps c2OldState c2Routes).get? 1 = some [] ∧
      (loadRoutes c2Deps c2OldState c2Routes).table
        ∈ (loadRoutesTables c2Deps c2OldState c2Routes).map id :=
  routeTable_rebuild_states c2Deps c2OldState c2Routes c2MidTable (by decide)

/-- Collaborators for the end-to-end scenario in the spec: discovery
returns the instance with host 10.0.0.5 and port 9000 for user-service,
time.ParseDuration parses "5s", and url.Parse parses the resolved target
into scheme "http" and host "10.0.0.5:9000" with empty path. -/
def c1Deps : GatewayDeps :=
  { serviceDiscovery := some fun name =>
      if name = "user-service" then Except.ok [{ host := "10.0.0.5", port := 9000 }]
      else Except.ok [],
    parseDuration := fun s => if s = "5s" then some 5000000000 else none,
    parseURL := fun s =>
      if s = "http://10.0.0.5:9000" then
        some { scheme := "http", host := "10.0.0.5:9000", path := "" }
      else none }

/-- The spec's route list: /api/users via service discovery. -/
def c1Routes : List RouteConfig :=
  [{ path := "/api/users", targetURL := "", serviceName := "user-service", timeout := "5s" }]

/-- Gateway state after loadRoutes under the end-to-end scenario. -/
def c1State : GatewayState :=
  loadRoutes c1Deps { rp := NewReverseProxy, table := [] } c1Routes

/-- A client request to the gateway for path /api/users. -/
def c1Request : URL :=
  { scheme := "http", host := "gateway.local", path := "/api/users" }

/-- Rendering of a URL, scheme://host followed by the path. -/
def urlString (u : URL) : String :=
  u.scheme ++ "://" ++ u.host ++ u.path

/-- C1 evaluated at the spec's scenario: the route is registered with
resolved target URL "http://10.0.0.5:9000", but invoking the registered
handler rewrites the request to an outbound URL whose host component is
the entire string "http://10.0.0.5:9000" (ProxyHandler's director sets
req.URL.Host to the raw target URL string), so the outbound URL renders as
"http://http://10.0.0.5:9000/api/users" and is not the claim's
"http://10.0.0.5:9000/api/users"; the request is not forwarded to the
backend URL the claim requires. -/
theorem proxy_forward_url_bug :
    lookupKey c1State.table "/api/users"
        = some { proxyId := 0, targetURL := "http://10.0.0.5:9000",
                 timeout := 5000000000 } ∧
      ((lookupKey c1State.rp.proxies "http://10.0.0.5:9000").map fun p =>
          urlString (invokeProxyHandler "http://10.0.0.5:9000" p c1Request).2)
        = some "http://http://10.0.0.5:9000/api/users" ∧
      "http://http://10.0.0.5:9000/api/users" ≠ "http://10.0.0.5:9000/api/users" := by
  refine ⟨rfl, rfl, by decide⟩

/-! Interleaving model of two concurrent Allow() calls on one limiter
(token_bucket.go lines 45-53).  The TokenBucketLimiter struct (lines 8-15)
contains no mutex and Allow takes no lock, so the test "limiter.tokens > 0"
(line 48) and the update "limiter.tokens--" (line 49) of one call
interleave freely with the other call's.  Both calls happen at the same
instant with no time elapsed since the last refill, so the preceding
refill() is the identity (elapsedTime = 0 is below any positive
refillInterval, e.g. the constructor's 1s default) and the shared state is
just the token counter.  A thread is a program counter: 0 = about to
evaluate the test, 1 = test passed and about to execute tokens--, 2 =
returned; tokens-- re-reads the shared counter, as the Go
load-modify-store does. -/

/-- Shared token counter plus each thread's program counter and returned
value. -/
structure RaceState where
  tokens : Int
  pcA : Nat
  pcB : Nat
  retA : Option Bool
  retB : Option Bool
deriving DecidableEq

/-- One atomic step of a single thread executing the body of Allow. -/
def allowThreadStep (tokens : Int) (pc : Nat) (ret : Option Bool) :
    Int × Nat × Option Bool :=
  match pc with
  | 0 => if 0 < tokens then (tokens, 1, ret) else (tokens, 2, some false)
  | 1 => (tokens - 1, 2, some true)
  | _ => (tokens, pc, ret)

/-- Scheduler step: false runs thread A, true runs thread B. -/
def raceStep (s : RaceState) (runB : Bool) : RaceState :=
  if runB then
    let r := allowThreadStep s.tokens s.pcB s.retB
    { s with tokens := r.1, pcB := r.2.1, retB := r.2.2 }
  else
    let r := allowThreadStep s.tokens s.pcA s.retA
    { s with tokens := r.1, pcA := r.2.1, retA := r.2.2 }

/-- Run a schedule of thread steps from an initial token count. -/
def runSchedule (tokens0 : Int) (sched : List Bool) : RaceState :=
  sched.foldl raceStep
    { tokens := tokens0, pcA := 0, pcB := 0, retA := none, retB := none }

/-- C6 at the failing input: two Allow() calls race on a limiter holding
one token.  Interleaved so both calls evaluate tokens > 0 before either
decrements (schedule A-test, B-test, A-decrement, B-decrement), both calls
return true and the shared counter ends at -1, violating even the bucket's
own 0-to-capacity bound; under either serialized order exactly one call
returns true and the counter ends at 0.  The unsynchronized interleavings
of Allow are therefore not equivalent to any serialization: Allow() does
not serialize concurrent calls. -/
theorem allow_unsynchronized_race :
    (runSchedule 1 [false, true, false, true]).retA = some true ∧
      (runSchedule 1 [false, true, false, true]).retB = some true ∧
      (runSchedule 1 [false, true, false, true]).tokens = -1 ∧
      (runSchedule 1 [false, false, true, true]).retA = some true ∧
      (runSchedule 1 [false, false, true, true]).retB = some false ∧
      (runSchedule 1 [false, false, true, true]).tokens = 0 ∧
      (runSchedule 1 [true, true, false, false]).retB = some true ∧
      (runSchedule 1 [true, true, false, false]).retA = some false ∧
      (runSchedule 1 [true, true, false, false]).tokens = 0 := by
  decide

/-! Middleware pipeline engine, from src/internal/router/router.go. -/

/-- Router (router.go lines 10-13) over an abstract handler type H: the
embedded mux.Router is the table of registered (path, handler) pairs, and
middlewares is the list appended by Use. -/
structure Router (H : Type) where
  table : List (String × H)
  middlewares : List (H → H)

/-- NewRouter (router.go lines 16-20). -/
def NewRouter (H : Type) : Router H :=
  { table := [], middlewares := [] }

/-- Use (router.go lines 23-25): append a middleware to the list. -/
def Router.Use {H : Type} (r : Router H) (m : H → H) : Router H :=
  { r with middlewares := r.middlewares ++ [m] }

/-- The loop in HandleFunc (router.go lines 30-32): for i from the last
middleware index down to 0, handler = middlewares[i](handler); iterating
the reversed list left to right visits the same indices in the same
order. -/
def applyMiddlewaresLoop {H : Type} (middlewares : List (H → H)) (handler : H) : H :=
  middlewares.reverse.foldl (fun h m => m h) handler

/-- HandleFunc (router.go lines 28-34): wrap the handler with every
registered middleware via the reverse loop, then register it. -/
def Router.HandleFunc {H : Type} (r : Router H) (path : String) (handler : H) : Router H :=
  { r with table := r.table ++ [(path, applyMiddlewaresLoop r.middlewares handler)] }

theorem applyMiddlewaresLoop_eq_foldr {H : Type} (middlewares : List (H → H)) (handler : H) :
    applyMiddlewaresLoop middlewares handler
      = List.foldr (fun m acc => m acc) handler middlewares := by
  unfold applyMiddlewaresLoop
  rw [List.foldl_reverse]

theorem foldr_trace (labels : List String) (base : List String) :
    List.foldr (fun (m : List String → List String) acc => m acc) base
        (labels.map fun l t => l :: t)
      = labels ++ base := by
  induction labels with
  | nil => rfl
  | cons l ls ih => simp [ih]

/-- C8: HandleFunc applies the registered middlewares in reverse
registration order around the terminal handler, so the handler it registers
is middlewares[0] (middlewares[1] (... (middlewares[n-1] terminal))): the
first-declared middleware is outermost, wraps all the others, and executes
first on each request.  Concretely, with middlewares that each record their
label and then delegate inward, the composed handler's trace lists the
labels in declaration order before the terminal handler's output. -/
theorem middleware_composition_order {H : Type} (r : Router H) (path : String) (handler : H)
    (labels : List String) (base : List String) :
    (r.HandleFunc path handler).table
        = r.table ++ [(path, List.foldr (fun m acc => m acc) handler r.middlewares)] ∧
      applyMiddlewaresLoop (labels.map fun l t => l :: t) base = labels ++ base := by
  constructor
  · unfold Router.HandleFunc
    rw [applyMiddlewaresLoop_eq_foldr]
  · rw [applyMiddlewaresLoop_eq_foldr, foldr_trace]

/-! Authentication middleware, from src/internal/middleware/auth_middleware.go. -/

/-- AuthConfig (internal/config): the fields AuthMiddleware reads. -/
structure AuthConfig where
  enabled : Bool
  type : String
  jwtSecretKey : String
deriving DecidableEq

/-- Go strings.ToLower; this model lower-cases ASCII letters (applied to
the string's character list), which agrees with Go on the ASCII strings
compared by the middleware. -/
def goToLower (s : String) : String :=
  String.mk (s.data.map Char.toLower)

/-- AuthMiddleware (auth_middleware.go lines 15-42) acting on one request:
next is the inner handler and jwtAuthHandler stands for the jwtAuth branch
(lines 45-79, whose internals call the external JWT library).  Disabled
authentication passes through (lines 20-23); otherwise the lower-cased
auth type dispatches (lines 25-39): "jwt" runs jwtAuth; "oauth2", "none"
and the default case invoke the inner handler directly. -/
def AuthMiddleware {Req Resp : Type} (cfg : AuthConfig)
    (jwtAuthHandler : String → (Req → Resp) → Req → Resp)
    (next : Req → Resp) (req : Req) : Resp :=
  if cfg.enabled = false then next req
  else
    if goToLower cfg.type = "jwt" then jwtAuthHandler cfg.jwtSecretKey next req
    else if goToLower cfg.type = "oauth2" then next req
    else if goToLower cfg.type = "none" then next req
    else next req

/-- C9: with authentication enabled and any configured auth type whose
lower-casing differs from "jwt" — including "oauth2", "none" and unknown
strings — AuthMiddleware invokes the inner handler on the request and
returns its response unchanged: no 401 is written, the middleware fails
open for every non-JWT type. -/
theorem authMiddleware_failsOpen_nonJwt {Req Resp : Type} (cfg : AuthConfig)
    (jwtAuthHandler : String → (Req → Resp) → Req → Resp)
    (next : Req → Resp) (req : Req)
    (henabled : cfg.enabled = true) (htype : goToLower cfg.type ≠ "jwt") :
    AuthMiddleware cfg jwtAuthHandler next req = next req := by
  unfold AuthMiddleware
  rw [henabled, if_neg (by simp), if_neg htype]
  split
  · rfl
  · split <;> rfl

/-- Witness for C9: enabled authentication of type "OAuth2" (lower-cased
"oauth2") passes the request straight through to the inner handler. -/
theorem authMiddleware_failsOpen_nonJwt_witness :
    AuthMiddleware { enabled := true, type := "OAuth2", jwtSecretKey := "k" }
        (fun _ _ _ => (0 : Nat)) (fun n => n + 1) (41 : Nat)
      = (fun n => n + 1) 41 :=
  authMiddleware_failsOpen_nonJwt _ _ _ _ rfl (by decide)
